import Mathlib

/-!
Verification of the sotopia-pi demo (`app.py`): profile loading, the
relationship index, the two dependent dropdown queries, the model-selection
guard, and the chat-turn sanitization loop, shallowly embedded in Lean.

Python dictionaries are modelled as association lists preserving insertion
order; `collections.defaultdict` access that inserts a default value on a
missing key is modelled explicitly, since that insertion mutates the shared
profile store.  Fallible operations (`KeyError`, `json.loads` failure,
`RuntimeError`) return `Except`.
-/

/-- Errors raised by the embedded code: `json.loads` failure on a profile
line, a dictionary `KeyError`, and `prepare_model`'s `RuntimeError`
(carrying the unsupported model name). -/
inductive Err where
  | jsonError : Err
  | keyError : Err
  | runtimeError : String → Err
deriving DecidableEq

/-- Lookup in an insertion-ordered association list (Python `dict` access
without default insertion). -/
def alookup {K V : Type} [DecidableEq K] : List (K × V) → K → Option V
  | [], _ => none
  | (k, v) :: rest, key => if key = k then some v else alookup rest key

/-- `d[k] = v` on a Python dict: replace in place when the key is present,
append otherwise (insertion order preserved). -/
def aset {K V : Type} [DecidableEq K] : List (K × V) → K → V → List (K × V)
  | [], key, v => [(key, v)]
  | (k, w) :: rest, key, v =>
      if key = k then (k, v) :: rest else (k, w) :: aset rest key v

/-- `defaultdict` subscript: return the stored value, or insert and return
the default when the key is missing.  Returns the (possibly grown) dict. -/
def dget {K V : Type} [DecidableEq K] (d : List (K × V)) (key : K) (dflt : V) :
    V × List (K × V) :=
  match alookup d key with
  | some v => (v, d)
  | none => (dflt, d ++ [(key, dflt)])

theorem alookup_aset {K V : Type} [DecidableEq K] (l : List (K × V)) (k : K)
    (v : V) (k' : K) :
    alookup (aset l k v) k' = if k' = k then some v else alookup l k' := by
  induction l with
  | nil => simp [aset, alookup]
  | cons hd tl ih =>
      obtain ⟨k0, v0⟩ := hd
      by_cases h1 : k = k0
      · subst h1
        by_cases h2 : k' = k <;> simp [aset, alookup, h2]
      · by_cases h2 : k' = k0
        · subst h2
          simp [aset, alookup, h1, Ne.symm h1, ih]
        · simp [aset, alookup, h1, h2, ih]

theorem alookup_append_single {K V : Type} [DecidableEq K] (l : List (K × V))
    (k : K) (v : V) (k' : K) :
    alookup (l ++ [(k, v)]) k' =
      match alookup l k' with
      | some w => some w
      | none => if k' = k then some v else none := by
  induction l with
  | nil => simp [alookup]
  | cons hd tl ih =>
      obtain ⟨k0, v0⟩ := hd
      by_cases h : k' = k0 <;> simp [alookup, h, ih]

theorem aset_self {K V : Type} [DecidableEq K] (l : List (K × V)) (k : K)
    (v : V) (h : alookup l k = some v) : aset l k v = l := by
  induction l with
  | nil => simp [alookup] at h
  | cons hd tl ih =>
      obtain ⟨k0, v0⟩ := hd
      by_cases h0 : k = k0
      · subst h0
        simp [alookup] at h
        simp [aset, h]
      · simp [alookup, h0] at h
        simp [aset, h0, ih h]

/-- Modelled from the spec: the `Environment` profile class from the
repository's `utils.py`, which is not in the source tree.  Per §3 of the
spec it carries an opaque stable id, a `codename`, free-text `scenario`,
the ordered `agent_goals` pair, and a `relationship` type tag. -/
structure Environment where
  _id : String
  codename : String
  scenario : String
  agent_goals : List String
  relationship : String
deriving DecidableEq

/-- Modelled from the spec: the `Agent` profile class from the repository's
`utils.py` (not in the source tree): an opaque primary id, a secondary
`agent_id` used as the endpoint key in relationship edges, and the textual
fields. -/
structure Agent where
  _id : String
  agent_id : String
  name : String
  background : String
  personality : String
deriving DecidableEq

/-- One parsed line of `environment_profiles.jsonl` (the fields `app.py`
and the `Environment` constructor read). -/
structure EnvRecord where
  pk : String
  codename : String
  scenario : String
  agent_goals : List String
  relationship : String
deriving DecidableEq

/-- One parsed line of `agent_profiles.jsonl`. -/
structure AgentRecord where
  pk : String
  agent_id : String
  name : String
  background : String
  personality : String
deriving DecidableEq

/-- One parsed line of `relationship_profiles.jsonl`: an undirected edge
`agent1_id — agent2_id` tagged with a `relationship` type. -/
structure RelRecord where
  relationship : String
  agent1_id : String
  agent2_id : String
deriving DecidableEq

def Environment.ofProfile (r : EnvRecord) : Environment :=
  ⟨r.pk, r.codename, r.scenario, r.agent_goals, r.relationship⟩

def Agent.ofProfile (r : AgentRecord) : Agent :=
  ⟨r.pk, r.agent_id, r.name, r.background, r.personality⟩

/-- The nested `relationship_dict`: relationship type ↦ endpoint agent id ↦
ordered list of counterpart agent ids (both levels are `defaultdict`s). -/
def RelDict : Type := List (String × List (String × List String))

instance : DecidableEq RelDict := by
  unfold RelDict
  infer_instance

/-- The memoized profile store returned by `get_sotopia_profiles`. -/
structure Store where
  environments : List (String × String)
  environment_dict : List (String × Environment)
  agent_dict : List (String × Agent)
  relationship_dict : RelDict
deriving DecidableEq

/-- `"{:05d}".format(n)`: decimal digits of `n`, zero-padded to width 5. -/
def pad5 (n : Nat) : String :=
  let s := toString n
  String.mk (List.replicate (5 - s.length) '0') ++ s

/-- `"{}_{:05d}".format(codename, k)`. -/
def suffixLabel (codename : String) (k : Nat) : String :=
  codename ++ "_" ++ pad5 k

/-- `code_names_count[c] += 1` on the `defaultdict(int)`. -/
def bump (d : List (String × Nat)) (c : String) : List (String × Nat) :=
  match alookup d c with
  | some k => aset d c (k + 1)
  | none => d ++ [(c, 1)]

/-- The environment loop of `get_sotopia_profiles` (app.py lines 36–51):
walks the codename-sorted records, labels the first occurrence of each
codename with the bare codename and each later one with a zero-padded
suffix, and builds `environment_dict`. -/
def envLoop (d : List (String × Nat)) (envs : List (String × String))
    (dict : List (String × Environment)) :
    List EnvRecord → List (String × String) × List (String × Environment)
  | [] => (envs, dict)
  | p :: rest =>
      let env_obj := Environment.ofProfile p
      let entry :=
        match alookup d p.codename with
        | some k => (suffixLabel p.codename k, env_obj._id)
        | none => (p.codename, env_obj._id)
      envLoop (bump d p.codename) (envs ++ [entry])
        (aset dict env_obj._id env_obj) rest

/-- `sorted(data, key=lambda x: x['codename'])`: Python's sort is stable;
it is modelled by a stable sort on the codename key. -/
def sortByCodename (data : List EnvRecord) : List EnvRecord :=
  List.insertionSort (fun a b => a.codename ≤ b.codename) data

/-- `relationship_dict[r][a].append(x)` (app.py lines 66–67), including the
default insertions performed by the nested `defaultdict`s. -/
def relAppend (d : RelDict) (r a x : String) : RelDict :=
  let (inner, d1) := dget d r []
  let (lst, inner1) := dget inner a []
  let inner2 := aset inner1 a (lst ++ [x])
  aset d1 r inner2

/-- Builds `relationship_dict` from the edge list (app.py lines 64–67):
each edge is entered in both directions, in file order. -/
def buildRelationshipDict (edges : List RelRecord) : RelDict :=
  edges.foldl
    (fun d e =>
      relAppend (relAppend d e.relationship e.agent1_id e.agent2_id)
        e.relationship e.agent2_id e.agent1_id)
    []

/-- `[json.loads(line) for line in f.readlines()]`: parse every line, or
fail on the first malformed one (nothing is skipped). -/
def mapOpt {α β : Type} (f : α → Option β) : List α → Option (List β)
  | [] => some []
  | x :: xs =>
      match f x with
      | none => none
      | some y =>
          match mapOpt f xs with
          | none => none
          | some ys => some (y :: ys)

def liftJson {α : Type} : Option α → Except Err α
  | some a => Except.ok a
  | none => Except.error Err.jsonError

/-- The body of `get_sotopia_profiles` (app.py lines 31–69).  `json.loads`
composed with record-field extraction is abstracted as the three parse
functions (one per file format); the three files are given as their lists
of lines. -/
def get_sotopia_profiles
    (parseEnv : String → Option EnvRecord)
    (parseAgent : String → Option AgentRecord)
    (parseRel : String → Option RelRecord)
    (envLines agentLines relLines : List String) : Except Err Store := do
  let data ← liftJson (mapOpt parseEnv envLines)
  let (environments, environment_dict) := envLoop [] [] [] (sortByCodename data)
  let agentData ← liftJson (mapOpt parseAgent agentLines)
  let agent_dict := agentData.foldl
    (fun d p => aset d (Agent.ofProfile p)._id (Agent.ofProfile p)) []
  let relData ← liftJson (mapOpt parseRel relLines)
  let relationship_dict := buildRelationshipDict relData
  pure ⟨environments, environment_dict, agent_dict, relationship_dict⟩

/-- A `gr.Dropdown` as constructed by the two query functions: its
`choices` (display name, agent id), pre-selected `value`, and label. -/
structure Dropdown where
  choices : List (String × String)
  value : Option String
  label : String
deriving DecidableEq

/-- `relationship_dict[r].items()` on the store's outer `defaultdict`:
returns the inner dict and the store after the default insertion a missing
key triggers. -/
def storeRelOuter (s : Store) (r : String) :
    List (String × List String) × Store :=
  let (inner, d1) := dget s.relationship_dict r []
  (inner, { s with relationship_dict := d1 })

/-- `relationship_dict[r][a]` on the store: both `defaultdict` levels may
insert their default; the store after those insertions is returned. -/
def storeRelGet (s : Store) (r a : String) : List String × Store :=
  let (inner, d1) := dget s.relationship_dict r []
  let (lst, inner1) := dget inner a []
  (lst, { s with relationship_dict := aset d1 r inner1 })

/-- `create_user_agent_dropdown` (app.py lines 119–130), threading the
shared store.  Python iterates a `set` of the inner dict's keys in
unspecified hash order; the keys of a dict are already pairwise distinct,
and the spec fixes no order here, so the model keeps key insertion order. -/
def create_user_agent_dropdown (s : Store) (environment_id : String) :
    Except Err Dropdown × Store :=
  match alookup s.environment_dict environment_id with
  | none => (Except.error Err.keyError, s)
  | some environment =>
      let (inner, s1) := storeRelOuter s environment.relationship
      let unique_agent_ids := inner.map Prod.fst
      match mapOpt
          (fun aid => (alookup s1.agent_dict aid).map (fun ag => (ag.name, aid)))
          unique_agent_ids with
      | none => (Except.error Err.keyError, s1)
      | some user_agents_list =>
          (Except.ok
            ⟨user_agents_list, (user_agents_list.head?).map Prod.snd,
              "User Agent Selection"⟩, s1)

/-- `create_bot_agent_dropdown` (app.py lines 132–140), threading the
shared store. -/
def create_bot_agent_dropdown (s : Store) (environment_id user_agent_id : String) :
    Except Err Dropdown × Store :=
  match alookup s.environment_dict environment_id,
      alookup s.agent_dict user_agent_id with
  | none, _ => (Except.error Err.keyError, s)
  | some _, none => (Except.error Err.keyError, s)
  | some environment, some user_agent =>
      let (lst, s1) := storeRelGet s environment.relationship user_agent.agent_id
      match mapOpt
          (fun nid => (alookup s1.agent_dict nid).map (fun ag => (ag.name, nid)))
          lst with
      | none => (Except.error Err.keyError, s1)
      | some bot_agent_list =>
          (Except.ok
            ⟨bot_agent_list, (bot_agent_list.head?).map Prod.snd,
              "Bot Agent Selection"⟩, s1)

/-- `needle` matches at the head of `hay` (character-wise). -/
def leadMatch : List Char → List Char → Bool
  | [], _ => true
  | _ :: _, [] => false
  | c :: cs, h :: hs => c = h && leadMatch cs hs

/-- Substring occurrence, as Python's `needle in hay` on strings. -/
def subMatch (needle : List Char) : List Char → Bool
  | [] => leadMatch needle []
  | h :: hs => leadMatch needle (h :: hs) || subMatch needle hs

/-- Python's `pat in s` for strings. -/
def strContains (s pat : String) : Bool :=
  subMatch pat.toList s.toList

/-- What `prepare_model` loads: the quantized base model with a PEFT
adapter, or the plain base model.  The actual weight loading is the
external inference library; the value records the requested configuration. -/
inductive Model where
  | peftQuantized : String → String → Model
  | plain : String → Model
deriving DecidableEq

/-- `prepare_model` (app.py lines 72–98): substring dispatch on the model
name, `RuntimeError` on anything else. -/
def prepare_model (model_name : String) : Except Err (Model × String) :=
  if strContains model_name "cmu-lti/sotopia-pi-mistral-7b-BC_SR" then
    Except.ok
      (Model.peftQuantized "mistralai/Mistral-7B-Instruct-v0.1" model_name,
        "mistralai/Mistral-7B-Instruct-v0.1")
  else if strContains model_name "mistralai/Mistral-7B-Instruct-v0.1" then
    Except.ok
      (Model.plain "mistralai/Mistral-7B-Instruct-v0.1",
        "mistralai/Mistral-7B-Instruct-v0.1")
  else Except.error (Err.runtimeError model_name)

/-- The model-selection dropdown choices (app.py line 165). -/
def modelSelectionChoices : List String :=
  ["cmu-lti/sotopia-pi-mistral-7b-BC_SR", "mistralai/Mistral-7B-Instruct-v0.1",
    "GPT3.5"]

/-- The sanitization retry loop of `run_chat` (app.py lines 245–253):
`output` starts as `""`; each of the (up to) `fuel` iterations calls
`format_bot_message` on the fixed raw completion, breaking on the first
success and keeping the previous `output` on an exception. -/
def sanitizeLoop (sanitize : String → Option String) (text : String) :
    Nat → String → String
  | 0, output => output
  | n + 1, output =>
      match sanitize text with
      | some v => v
      | none => sanitizeLoop sanitize text n output

/-- `run_chat` (app.py lines 216–253).  The external pieces are parameters:
`fmt` is `format_sotopia_prompt` (from the absent `utils.py`), `gen` is the
tokenizer/`model.generate`/decode pipeline, `sanitize` is
`format_bot_message` (absent `utils.py`; `none` models it raising). -/
def run_chat
    (fmt : String → List (String × String) → String → String → String → String)
    (gen : Model × String → String → String)
    (sanitize : String → Option String)
    (message : String) (history : List (String × String))
    (instructions : String) (user_agent bot_agent : Agent)
    (model_selection : String) : Except Err String := do
  let user_name := user_agent.name
  let bot_name := bot_agent.name
  let mt ← prepare_model model_selection
  let prompt := fmt message history instructions user_name bot_name
  let text_output := gen mt prompt
  pure (sanitizeLoop sanitize text_output 5 "")

/-- The single-attempt handler the spec prescribes in place of the retry
loop: call the sanitizer once; on failure the outcome is the loop's
initial `""`. -/
def singleAttempt (sanitize : String → Option String) (text : String) : String :=
  match sanitize text with
  | some v => v
  | none => ""

/-- `run_chat` with the retry loop replaced by a single sanitization
attempt (the spec's recommended equivalent). -/
def run_chat_single
    (fmt : String → List (String × String) → String → String → String → String)
    (gen : Model × String → String → String)
    (sanitize : String → Option String)
    (message : String) (history : List (String × String))
    (instructions : String) (user_agent bot_agent : Agent)
    (model_selection : String) : Except Err String := do
  let user_name := user_agent.name
  let bot_name := bot_agent.name
  let mt ← prepare_model model_selection
  let prompt := fmt message history instructions user_name bot_name
  let text_output := gen mt prompt
  pure (singleAttempt sanitize text_output)

/-- The `functools.cache` memo table on `get_sotopia_profiles`, keyed by
the argument triple of file paths.  Only successful results are cached
(a raising call stores nothing). -/
def CacheState : Type := List ((String × String × String) × Store)

instance : DecidableEq CacheState := by
  unfold CacheState
  infer_instance

/-- One call through the `functools.cache` wrapper: on a hit the stored
snapshot is returned and the underlying function is not entered; on a miss
the body runs once (the returned `Nat` counts body executions: 0 or 1). -/
def cachedCall (compute : String × String × String → Except Err Store)
    (args : String × String × String) (st : CacheState) :
    Except Err Store × CacheState × Nat :=
  match alookup st args with
  | some v => (Except.ok v, st, 0)
  | none =>
      match compute args with
      | Except.ok v => (Except.ok v, aset st args v, 1)
      | Except.error e => (Except.error e, st, 1)

/-- The memoized `get_sotopia_profiles` entry point (app.py line 31's
`@cache` applied to the body): the triple of paths is the cache key and the
three files are read through `readFile` only when the body runs. -/
def cached_get_sotopia_profiles
    (parseEnv : String → Option EnvRecord)
    (parseAgent : String → Option AgentRecord)
    (parseRel : String → Option RelRecord)
    (readFile : String → List String)
    (args : String × String × String) (st : CacheState) :
    Except Err Store × CacheState × Nat :=
  cachedCall
    (fun a =>
      get_sotopia_profiles parseEnv parseAgent parseRel
        (readFile a.1) (readFile a.2.1) (readFile a.2.2))
    args st

/-- Spec-level counterpart list (§4.2 `candidate_bot_agents`): for each edge
of relationship type `r` incident to `u`, in edge order, the counterpart
endpoint(s); duplicates are kept, and a self-edge contributes twice just as
the two symmetric insertions do. -/
def counterpartsSpec : List RelRecord → String → String → List String
  | [], _, _ => []
  | e :: es, r, u =>
      (if e.relationship = r then
        (if e.agent1_id = u then [e.agent2_id] else []) ++
          (if e.agent2_id = u then [e.agent1_id] else [])
      else []) ++ counterpartsSpec es r u

/-- Reading the nested `relationship_dict` as a total multimap: the
counterpart list of `u` under type `r`, empty when either key is absent. -/
def relLookup (d : RelDict) (r u : String) : List String :=
  match alookup d r with
  | none => []
  | some inner =>
      match alookup inner u with
      | none => []
      | some l => l

theorem relLookup_relAppend (d : RelDict) (r a x : String) (r' u : String) :
    relLookup (relAppend d r a x) r' u =
      relLookup d r' u ++ (if r' = r ∧ u = a then [x] else []) := by
  unfold relAppend dget
  cases hd : alookup d r with
  | some inner =>
      cases hi : alookup inner a with
      | some lst =>
          simp only [hd, hi, relLookup, alookup_aset]
          by_cases hr : r' = r
          · subst hr
            by_cases hu : u = a
            · subst hu
              simp [hd, hi, alookup_aset]
            · simp [hd, hu, alookup_aset, hi]
          · simp [hr, hd]
      | none =>
          simp only [hd, hi, relLookup, alookup_aset]
          by_cases hr : r' = r
          · subst hr
            by_cases hu : u = a
            · subst hu
              simp [hd, hi, alookup_aset, alookup_append_single]
            · simp [hd, hu, alookup_aset, alookup_append_single, hi]
              cases alookup inner u <;> simp
          · simp [hr, hd]
  | none =>
      simp only [hd, relLookup, alookup_aset]
      by_cases hr : r' = r
      · subst hr
        by_cases hu : u = a
        · subst hu
          simp [alookup_aset, alookup_append_single, hd, alookup]
        · simp [alookup_aset, alookup_append_single, hd, alookup, hu]
      · simp [hr, alookup_aset, alookup_append_single, hd]
        cases h' : alookup d r' <;> simp [hr]

theorem relLookup_buildStep (d : RelDict) (e : RelRecord) (r u : String) :
    relLookup
        (relAppend (relAppend d e.relationship e.agent1_id e.agent2_id)
          e.relationship e.agent2_id e.agent1_id) r u
      = relLookup d r u ++
          (if e.relationship = r then
            (if e.agent1_id = u then [e.agent2_id] else []) ++
              (if e.agent2_id = u then [e.agent1_id] else [])
          else []) := by
  rw [relLookup_relAppend, relLookup_relAppend, List.append_assoc]
  by_cases hr : e.relationship = r
  · subst hr
    by_cases h1 : e.agent1_id = u <;> by_cases h2 : e.agent2_id = u
    · simp [h1, h2]
    · have h2' : ¬ (u = e.agent2_id) := fun h => h2 h.symm
      simp [h1, h2, h2']
    · have h1' : ¬ (u = e.agent1_id) := fun h => h1 h.symm
      simp [h1, h1', h2]
    · have h1' : ¬ (u = e.agent1_id) := fun h => h1 h.symm
      have h2' : ¬ (u = e.agent2_id) := fun h => h2 h.symm
      simp [h1, h2, h1', h2']
  · have hr' : ¬ (r = e.relationship) := fun h => hr h.symm
    simp [hr, hr']

theorem relLookup_foldl (es : List RelRecord) (r u : String) :
    ∀ d : RelDict,
      relLookup
          (es.foldl
            (fun d e =>
              relAppend (relAppend d e.relationship e.agent1_id e.agent2_id)
                e.relationship e.agent2_id e.agent1_id)
            d) r u
        = relLookup d r u ++ counterpartsSpec es r u := by
  induction es with
  | nil => intro d; simp [counterpartsSpec]
  | cons e es ih =>
      intro d
      simp only [List.foldl_cons, counterpartsSpec]
      rw [ih, relLookup_buildStep, List.append_assoc]

/-- The loaded relationship index realizes the spec's counterpart lists
exactly. -/
theorem relLookup_build (edges : List RelRecord) (r u : String) :
    relLookup (buildRelationshipDict edges) r u = counterpartsSpec edges r u := by
  unfold buildRelationshipDict
  rw [relLookup_foldl]
  simp [relLookup, alookup]

theorem mapOpt_eq_none {α β : Type} (f : α → Option β) (l : List α) (x : α)
    (hx : x ∈ l) (hfx : f x = none) : mapOpt f l = none := by
  induction l with
  | nil => cases hx
  | cons y ys ih =>
      rcases List.mem_cons.mp hx with h | h
      · subst h
        simp [mapOpt, hfx]
      · unfold mapOpt
        cases f y with
        | none => rfl
        | some z => rw [ih h]

theorem mapOpt_snd {α β : Type} (f : α → Option (β × α))
    (hf : ∀ x y, f x = some y → y.2 = x) :
    ∀ l l', mapOpt f l = some l' → l'.map Prod.snd = l := by
  intro l
  induction l with
  | nil =>
      intro l' h
      simp [mapOpt] at h
      subst h
      rfl
  | cons x xs ih =>
      intro l' h
      unfold mapOpt at h
      cases hx : f x with
      | none => rw [hx] at h; cases h
      | some y =>
          rw [hx] at h
          cases hxs : mapOpt f xs with
          | none => rw [hxs] at h; cases h
          | some ys =>
              rw [hxs] at h
              cases h
              simp [ih ys hxs, hf x y hx]

theorem sanitizeLoop_of_none (f : String → Option String) (t : String)
    (h : f t = none) : ∀ n out, sanitizeLoop f t n out = out := by
  intro n
  induction n with
  | zero => intro out; rfl
  | succ n ih =>
      intro out
      unfold sanitizeLoop
      rw [h]
      exact ih out

theorem sanitizeLoop_five (f : String → Option String) (t : String) :
    sanitizeLoop f t 5 "" = singleAttempt f t := by
  cases hf : f t with
  | some v => simp [sanitizeLoop, singleAttempt, hf]
  | none => simp [singleAttempt, hf, sanitizeLoop_of_none f t hf]

theorem alookup_relAppend_other (d : RelDict) (rel a x r : String)
    (h : ¬ (r = rel)) : alookup (relAppend d rel a x) r = alookup d r := by
  unfold relAppend dget
  cases hd : alookup d rel with
  | some inner =>
      cases hi : alookup inner a <;> simp [hd, hi, alookup_aset, h]
  | none =>
      simp [hd, alookup_aset, h, alookup_append_single]
      cases alookup d r <;> simp [h]

theorem alookup_build_none (edges : List RelRecord) (r : String)
    (h : ∀ e ∈ edges, ¬ (e.relationship = r)) :
    alookup (buildRelationshipDict edges) r = none := by
  unfold buildRelationshipDict
  have aux : ∀ es : List RelRecord, (∀ e ∈ es, ¬ (e.relationship = r)) →
      ∀ d : RelDict, alookup d r = none →
        alookup
            (es.foldl
              (fun d e =>
                relAppend (relAppend d e.relationship e.agent1_id e.agent2_id)
                  e.relationship e.agent2_id e.agent1_id)
              d) r = none := by
    intro es
    induction es with
    | nil => intro _ d hd; exact hd
    | cons e es ih =>
        intro hes d hd
        have he : ¬ (r = e.relationship) :=
          fun hh => hes e (List.mem_cons_self e es) hh.symm
        simp only [List.foldl_cons]
        refine ih (fun e' he' => hes e' (List.mem_cons_of_mem e he')) _ ?_
        rw [alookup_relAppend_other _ _ _ _ _ he,
          alookup_relAppend_other _ _ _ _ _ he]
        exact hd
  exact aux edges h [] rfl

theorem storeRelGet_fst (s : Store) (r a : String) :
    (storeRelGet s r a).1 = relLookup s.relationship_dict r a := by
  unfold storeRelGet dget relLookup
  cases hd : alookup s.relationship_dict r with
  | some inner => cases hi : alookup inner a <;> simp [hd, hi, alookup]
  | none => simp [hd, alookup]

theorem relLookup_storeRelOuter (s : Store) (r r' u : String) :
    relLookup (storeRelOuter s r).2.relationship_dict r' u
      = relLookup s.relationship_dict r' u := by
  unfold storeRelOuter dget
  cases hd : alookup s.relationship_dict r with
  | some inner => simp [hd]
  | none =>
      simp only [hd]
      unfold relLookup
      rw [alookup_append_single]
      cases hd' : alookup s.relationship_dict r' with
      | some inner => simp
      | none =>
          by_cases hr : r' = r
          · subst hr
            simp [alookup]
          · simp [hr]

theorem relLookup_storeRelGet (s : Store) (r a r' u : String) :
    relLookup (storeRelGet s r a).2.relationship_dict r' u
      = relLookup s.relationship_dict r' u := by
  unfold storeRelGet dget
  cases hd : alookup s.relationship_dict r with
  | some inner =>
      cases hi : alookup inner a with
      | some lst =>
          simp only [hd, hi]
          rw [aset_self _ _ _ hd]
      | none =>
          simp only [hd, hi]
          unfold relLookup
          rw [alookup_aset]
          by_cases hr : r' = r
          · subst hr
            simp only [if_pos rfl, hd, if_true]
            rw [alookup_append_single]
            cases hu' : alookup inner u with
            | some l => simp
            | none =>
                by_cases hu : u = a
                · subst hu; simp
                · simp [hu]
          · simp [hr]
  | none =>
      simp only [hd, alookup]
      unfold relLookup
      rw [alookup_aset]
      by_cases hr : r' = r
      · subst hr
        simp only [if_pos rfl, hd]
        rw [alookup_append_single]
        by_cases hu : u = a
        · subst hu; simp [alookup]
        · simp [alookup, hu]
      · simp only [if_neg hr]
        rw [alookup_append_single]
        cases hd' : alookup s.relationship_dict r' with
        | some inner => simp
        | none => simp [hr]

/-- Number of records with codename `c` in a list (the occurrence count the
display-name disambiguation rule is stated with). -/
def countOccs (c : String) (l : List EnvRecord) : Nat :=
  (l.filter (fun p => p.codename = c)).length

/-- Spec-level display list (§3 display name disambiguation, stated over
the codename-sorted records): the first occurrence of a codename keeps the
bare codename as its label; the k-th later occurrence is labelled
`codename_<k zero-padded to 5>`; ids are passed through unchanged. -/
def specDisplayList (pre : List EnvRecord) : List EnvRecord → List (String × String)
  | [] => []
  | p :: rest =>
      (if countOccs p.codename pre = 0 then p.codename
       else suffixLabel p.codename (countOccs p.codename pre), p.pk)
        :: specDisplayList (pre ++ [p]) rest

theorem countOccs_append_single (c : String) (pre : List EnvRecord)
    (p : EnvRecord) :
    countOccs c (pre ++ [p])
      = countOccs c pre + (if p.codename = c then 1 else 0) := by
  unfold countOccs
  rw [List.filter_append]
  by_cases h : p.codename = c <;> simp [h]

theorem bump_invariant (d : List (String × Nat)) (pre : List EnvRecord)
    (p : EnvRecord)
    (h : ∀ c, alookup d c =
      if countOccs c pre = 0 then none else some (countOccs c pre)) :
    ∀ c, alookup (bump d p.codename) c =
      if countOccs c (pre ++ [p]) = 0 then none
      else some (countOccs c (pre ++ [p])) := by
  intro c
  unfold bump
  rw [h p.codename]
  by_cases h0 : countOccs p.codename pre = 0
  · rw [if_pos h0, alookup_append_single, h c, countOccs_append_single]
    by_cases hc : p.codename = c
    · subst hc
      simp [h0]
    · have hc' : ¬ (c = p.codename) := fun hh => hc hh.symm
      by_cases hcc : countOccs c pre = 0 <;> simp [hc, hc', hcc]
  · rw [if_neg h0, alookup_aset, h c, countOccs_append_single]
    by_cases hc : c = p.codename
    · subst hc
      simp [h0]
    · have hc' : ¬ (p.codename = c) := fun hh => hc hh.symm
      simp [hc, hc']

theorem envLoop_spec (rest : List EnvRecord) :
    ∀ (d : List (String × Nat)) (pre : List EnvRecord)
      (envs : List (String × String)) (dict : List (String × Environment)),
      (∀ c, alookup d c =
        if countOccs c pre = 0 then none else some (countOccs c pre)) →
      (envLoop d envs dict rest).1 = envs ++ specDisplayList pre rest := by
  induction rest with
  | nil => intro d pre envs dict _; simp [envLoop, specDisplayList]
  | cons p rest ih =>
      intro d pre envs dict h
      unfold envLoop specDisplayList
      rw [h p.codename]
      by_cases h0 : countOccs p.codename pre = 0
      · rw [if_pos h0]
        rw [ih (bump d p.codename) (pre ++ [p]) _ _ (bump_invariant d pre p h)]
        simp [Environment.ofProfile, h0]
      · rw [if_neg h0]
        rw [ih (bump d p.codename) (pre ++ [p]) _ _ (bump_invariant d pre p h)]
        simp [Environment.ofProfile, h0]

theorem specDisplayList_snd (rest : List EnvRecord) :
    ∀ pre, (specDisplayList pre rest).map Prod.snd = rest.map EnvRecord.pk := by
  induction rest with
  | nil => intro pre; rfl
  | cons p rest ih => intro pre; simp [specDisplayList, ih]

theorem sortByCodename_sorted (data : List EnvRecord) :
    ((sortByCodename data).map EnvRecord.codename).Sorted (· ≤ ·) := by
  haveI ht : IsTotal EnvRecord (fun a b => a.codename ≤ b.codename) :=
    ⟨fun a b => le_total a.codename b.codename⟩
  haveI htr : IsTrans EnvRecord (fun a b => a.codename ≤ b.codename) :=
    ⟨fun _ _ _ hab hbc => le_trans hab hbc⟩
  have hp :=
    List.sorted_insertionSort (fun a b => a.codename ≤ b.codename) data
  rw [List.Sorted, List.pairwise_map]
  exact hp

/-- The two duplicate-codename records of the spec's scenario. -/
def negRecord1 : EnvRecord :=
  ⟨"env-1", "negotiation", "scenario one", ["goal-0", "goal-1"], "rel-0"⟩

def negRecord2 : EnvRecord :=
  ⟨"env-2", "negotiation", "scenario two", ["goal-0", "goal-1"], "rel-0"⟩

theorem sortByCodename_negotiation :
    sortByCodename [negRecord1, negRecord2] = [negRecord1, negRecord2] := by
  unfold sortByCodename
  simp only [List.insertionSort, List.orderedInsert]
  rw [if_pos (show negRecord1.codename ≤ negRecord2.codename from le_refl _)]


/-- Claim C6: under the hypothesis that the sanitizer is a deterministic
function of its input (here: any function `sanitize`), the bounded 5-attempt
retry loop in `run_chat` is observably equivalent to a single sanitization
attempt; if that single attempt fails, all 5 attempts fail identically and
the loop keeps its initial `""`. -/
theorem runChat_retry_eq_single
    (fmt : String → List (String × String) → String → String → String → String)
    (gen : Model × String → String → String)
    (sanitize : String → Option String)
    (message : String) (history : List (String × String))
    (instructions : String) (user_agent bot_agent : Agent)
    (model_selection : String) :
    run_chat fmt gen sanitize message history instructions user_agent
        bot_agent model_selection
      = run_chat_single fmt gen sanitize message history instructions
          user_agent bot_agent model_selection := by
  unfold run_chat run_chat_single
  cases hp : prepare_model model_selection with
  | error e => rfl
  | ok mt =>
      simp only [Except.bind, bind]
      rw [sanitizeLoop_five]

/-- Claim C10: the model-selection dropdown offers `"GPT3.5"`, but
`prepare_model` raises `RuntimeError` for every model name containing
neither supported substring; hence every chat turn submitted with the
`"GPT3.5"` selection fails with `RuntimeError` instead of producing a
reply. -/
theorem gpt35_selection_runtimeError :
    "GPT3.5" ∈ modelSelectionChoices
    ∧ (∀ name : String,
        strContains name "cmu-lti/sotopia-pi-mistral-7b-BC_SR" = false →
        strContains name "mistralai/Mistral-7B-Instruct-v0.1" = false →
        prepare_model name = Except.error (Err.runtimeError name))
    ∧ (∀ (fmt : String → List (String × String) → String → String → String → String)
        (gen : Model × String → String → String)
        (sanitize : String → Option String)
        (message : String) (history : List (String × String))
        (instructions : String) (user_agent bot_agent : Agent),
        run_chat fmt gen sanitize message history instructions user_agent
            bot_agent "GPT3.5"
          = Except.error (Err.runtimeError "GPT3.5")) := by
  refine ⟨by simp [modelSelectionChoices], ?_, ?_⟩
  · intro name h1 h2
    unfold prepare_model
    rw [h1, h2]
    rfl
  · intro fmt gen sanitize message history instructions user_agent bot_agent
    unfold run_chat
    have hp : prepare_model "GPT3.5" = Except.error (Err.runtimeError "GPT3.5") := by
      rfl
    rw [hp]
    rfl

/-- Closed witness for C10 at the concrete input `"GPT3.5"`. -/
theorem gpt35_selection_runtimeError_witness :
    strContains "GPT3.5" "cmu-lti/sotopia-pi-mistral-7b-BC_SR" = false
    ∧ strContains "GPT3.5" "mistralai/Mistral-7B-Instruct-v0.1" = false
    ∧ prepare_model "GPT3.5" = Except.error (Err.runtimeError "GPT3.5") :=
  ⟨by decide, by decide,
    gpt35_selection_runtimeError.2.1 "GPT3.5" (by decide) (by decide)⟩

/-- Claim C1 (failing execution): at a raw completion the sanitizer can
never turn into a reply (it raises on all 5 attempts), `run_chat` returns
`Except.ok ""` — the silent empty string — rather than a clearly-marked
placeholder or a `MalformedOutput` failure. -/
theorem runChat_unsanitizable_returns_empty :
    run_chat (fun _ _ _ _ _ => "prompt") (fun _ _ => "raw completion")
        (fun _ => none) "hello" [] "instructions"
        ⟨"a1", "a1", "Alice", "bg", "pers"⟩ ⟨"a2", "a2", "Bob", "bg", "pers"⟩
        "cmu-lti/sotopia-pi-mistral-7b-BC_SR"
      = Except.ok "" := by rfl

theorem counterparts_undirected (edges : List RelRecord) (e : RelRecord)
    (he : e ∈ edges) :
    e.agent2_id ∈ counterpartsSpec edges e.relationship e.agent1_id
    ∧ e.agent1_id ∈ counterpartsSpec edges e.relationship e.agent2_id := by
  induction edges with
  | nil => cases he
  | cons f fs ih =>
      rcases List.mem_cons.mp he with h | h
      · subst h
        unfold counterpartsSpec
        constructor
        · simp
        · by_cases h12 : e.agent1_id = e.agent2_id <;> simp [h12]
      · have := ih h
        unfold counterpartsSpec
        exact ⟨List.mem_append_right _ this.1, List.mem_append_right _ this.2⟩

theorem storeRelGet_agent_dict (s : Store) (r a : String) :
    (storeRelGet s r a).2.agent_dict = s.agent_dict := by
  unfold storeRelGet dget
  cases hd : alookup s.relationship_dict r with
  | some inner => cases hi : alookup inner a <;> simp
  | none => simp

/-- Claim C2: the bot-candidate query returns exactly the counterpart
endpoints of the edges of the environment's relationship type incident to
the user agent, in edge-insertion order with duplicates preserved; and the
loaded index is undirected: every edge makes each endpoint a counterpart of
the other under its relationship type. -/
theorem botCandidates_counterparts (s : Store) (edges : List RelRecord)
    (envId uId : String) (env : Environment) (ua : Agent)
    (hrel : s.relationship_dict = buildRelationshipDict edges)
    (henv : alookup s.environment_dict envId = some env)
    (hua : alookup s.agent_dict uId = some ua) :
    (∀ (dd : Dropdown) (s' : Store),
        create_bot_agent_dropdown s envId uId = (Except.ok dd, s') →
        dd.choices.map Prod.snd
          = counterpartsSpec edges env.relationship ua.agent_id)
    ∧ (∀ e ∈ edges,
        e.agent2_id ∈
          relLookup (buildRelationshipDict edges) e.relationship e.agent1_id
        ∧ e.agent1_id ∈
          relLookup (buildRelationshipDict edges) e.relationship e.agent2_id) := by
  constructor
  · intro dd s' hq
    unfold create_bot_agent_dropdown at hq
    simp only [henv, hua] at hq
    rcases hsg : storeRelGet s env.relationship ua.agent_id with ⟨lst, s1⟩
    simp only [hsg] at hq
    have hlst : lst = counterpartsSpec edges env.relationship ua.agent_id := by
      have h1 := storeRelGet_fst s env.relationship ua.agent_id
      rw [hsg] at h1
      have h1' : lst = relLookup s.relationship_dict env.relationship ua.agent_id := h1
      rw [h1', hrel, relLookup_build]
    cases hm : mapOpt
        (fun nid => (alookup s1.agent_dict nid).map (fun ag => (ag.name, nid)))
        lst with
    | none => rw [hm] at hq; cases hq
    | some bl =>
        rw [hm] at hq
        have hdd : dd = ⟨bl, (bl.head?).map Prod.snd, "Bot Agent Selection"⟩ := by
          cases hq
          rfl
        have hsnd :
            bl.map Prod.snd = lst := by
          refine mapOpt_snd _ ?_ lst bl hm
          intro x y hxy
          cases hx : alookup s1.agent_dict x with
          | none => rw [hx] at hxy; cases hxy
          | some ag =>
              rw [hx] at hxy
              cases hxy
              rfl
        rw [hdd]
        simpa [hlst] using hsnd
  · intro e he
    rw [relLookup_build, relLookup_build]
    exact counterparts_undirected edges e he

/-- A one-edge world used as concrete input by several witnesses. -/
def edgeW : RelRecord := ⟨"friend", "a1", "a2"⟩

def envW : Environment := ⟨"e1", "cn", "sc", ["g0", "g1"], "friend"⟩

def agentW1 : Agent := ⟨"a1", "a1", "Alice", "bg1", "p1"⟩

def agentW2 : Agent := ⟨"a2", "a2", "Bob", "bg2", "p2"⟩

def storeW : Store :=
  ⟨[("cn", "e1")], [("e1", envW)], [("a1", agentW1), ("a2", agentW2)],
    buildRelationshipDict [edgeW]⟩

/-- Closed witness for C2 on the one-edge store. -/
theorem botCandidates_counterparts_witness :
    create_bot_agent_dropdown storeW "e1" "a1"
        = (Except.ok ⟨[("Bob", "a2")], some "a2", "Bot Agent Selection"⟩, storeW)
    ∧ ([("Bob", "a2")] : List (String × String)).map Prod.snd
        = counterpartsSpec [edgeW] envW.relationship agentW1.agent_id := by
  constructor
  · rfl
  · exact
      (botCandidates_counterparts storeW [edgeW] "e1" "a1" envW agentW1
          rfl rfl rfl).1
        ⟨[("Bob", "a2")], some "a2", "Bot Agent Selection"⟩ storeW (by rfl)

/-- An edge-free store in which environment `"e1"` and agent `"a1"` resolve
but `"a1"` has no counterpart under the environment's relationship type. -/
def storeNoEdges : Store :=
  ⟨[("cn", "e1")], [("e1", envW)], [("a1", agentW1)], []⟩

/-- Counterexample to C5 as stated: with an empty counterpart list the
bot-candidate query returns a value (an empty dropdown with `None`
selection) — it does not fail with `NotFoundError`. -/
theorem create_bot_empty_returns_value :
    (create_bot_agent_dropdown storeNoEdges "e1" "a1").1
      = Except.ok ⟨[], none, "Bot Agent Selection"⟩ := by rfl

/-- Claim C5 (amended): when the counterpart list is empty, the
bot-candidate query returns a dropdown with empty choices and a `None`
default selection without raising; it never dereferences the first element
of the empty list (the `if bot_agent_list else None` guard). -/
theorem create_bot_empty_dropdown (s : Store) (envId uId : String)
    (env : Environment) (ua : Agent)
    (henv : alookup s.environment_dict envId = some env)
    (hua : alookup s.agent_dict uId = some ua)
    (hempty : relLookup s.relationship_dict env.relationship ua.agent_id = []) :
    (create_bot_agent_dropdown s envId uId).1
      = Except.ok ⟨[], none, "Bot Agent Selection"⟩ := by
  unfold create_bot_agent_dropdown
  simp only [henv, hua]
  rcases hsg : storeRelGet s env.relationship ua.agent_id with ⟨lst, s1⟩
  simp only [hsg]
  have h1 := storeRelGet_fst s env.relationship ua.agent_id
  rw [hsg] at h1
  have h1' : lst = [] := by
    have : lst = relLookup s.relationship_dict env.relationship ua.agent_id := h1
    rw [this, hempty]
  subst h1'
  simp [mapOpt]

/-- Closed witness for the amended C5 on the edge-free store. -/
theorem create_bot_empty_dropdown_witness :
    alookup storeNoEdges.environment_dict "e1" = some envW
    ∧ alookup storeNoEdges.agent_dict "a1" = some agentW1
    ∧ relLookup storeNoEdges.relationship_dict envW.relationship
        agentW1.agent_id = []
    ∧ (create_bot_agent_dropdown storeNoEdges "e1" "a1").1
        = Except.ok ⟨[], none, "Bot Agent Selection"⟩ :=
  ⟨rfl, rfl, rfl,
    create_bot_empty_dropdown storeNoEdges "e1" "a1" envW agentW1 rfl rfl rfl⟩

/-- Claim C9: for an environment whose relationship type has zero edges in
the loaded index, the user-candidate query returns an empty choice list and
a `None` default selection without raising. -/
theorem create_user_empty_relationship (s : Store) (edges : List RelRecord)
    (envId : String) (env : Environment)
    (hrel : s.relationship_dict = buildRelationshipDict edges)
    (henv : alookup s.environment_dict envId = some env)
    (hnone : ∀ e ∈ edges, ¬ (e.relationship = env.relationship)) :
    (create_user_agent_dropdown s envId).1
      = Except.ok ⟨[], none, "User Agent Selection"⟩ := by
  have hb : alookup s.relationship_dict env.relationship = none := by
    rw [hrel]
    exact alookup_build_none edges env.relationship hnone
  unfold create_user_agent_dropdown storeRelOuter dget
  simp only [henv, hb]
  simp [mapOpt]

/-- Closed witness for C9 on the edge-free store. -/
theorem create_user_empty_relationship_witness :
    storeNoEdges.relationship_dict = buildRelationshipDict []
    ∧ alookup storeNoEdges.environment_dict "e1" = some envW
    ∧ (create_user_agent_dropdown storeNoEdges "e1").1
        = Except.ok ⟨[], none, "User Agent Selection"⟩ :=
  ⟨rfl, rfl,
    create_user_empty_relationship storeNoEdges [] "e1" envW rfl rfl
      (fun e he => absurd he (List.not_mem_nil e))⟩

/-- Counterexample to C4 as stated: querying the user-candidate dropdown on
a store whose relationship index lacks the environment's relationship type
inserts a default entry into the shared `defaultdict` — the store object
after the query differs from the store before it. -/
theorem create_user_mutates_store :
    (create_user_agent_dropdown storeNoEdges "e1").2 ≠ storeNoEdges := by
  decide

theorem storeRelOuter_env_fields (s : Store) (r : String) :
    (storeRelOuter s r).2.environments = s.environments
    ∧ (storeRelOuter s r).2.environment_dict = s.environment_dict
    ∧ (storeRelOuter s r).2.agent_dict = s.agent_dict := by
  unfold storeRelOuter dget
  cases alookup s.relationship_dict r <;> exact ⟨rfl, rfl, rfl⟩

theorem storeRelGet_env_fields (s : Store) (r a : String) :
    (storeRelGet s r a).2.environments = s.environments
    ∧ (storeRelGet s r a).2.environment_dict = s.environment_dict
    ∧ (storeRelGet s r a).2.agent_dict = s.agent_dict := by
  unfold storeRelGet dget
  cases hd : alookup s.relationship_dict r with
  | some inner => cases hi : alookup inner a <;> exact ⟨rfl, rfl, rfl⟩
  | none => exact ⟨rfl, rfl, rfl⟩

theorem create_user_snd (s : Store) (envId : String) :
    (create_user_agent_dropdown s envId).2 = s
    ∨ ∃ r, (create_user_agent_dropdown s envId).2 = (storeRelOuter s r).2 := by
  cases henv : alookup s.environment_dict envId with
  | none => left; simp [create_user_agent_dropdown, henv]
  | some env =>
      right
      refine ⟨env.relationship, ?_⟩
      unfold create_user_agent_dropdown
      simp only [henv]
      rcases hso : storeRelOuter s env.relationship with ⟨inner, s1⟩
      simp only [hso]
      cases hm : mapOpt
          (fun aid => (alookup s1.agent_dict aid).map (fun ag => (ag.name, aid)))
          (inner.map Prod.fst) <;> simp [hm]

theorem create_bot_snd (s : Store) (envId uId : String) :
    (create_bot_agent_dropdown s envId uId).2 = s
    ∨ ∃ r a, (create_bot_agent_dropdown s envId uId).2 = (storeRelGet s r a).2 := by
  cases henv : alookup s.environment_dict envId with
  | none => left; simp [create_bot_agent_dropdown, henv]
  | some env =>
      cases hua : alookup s.agent_dict uId with
      | none => left; simp [create_bot_agent_dropdown, henv, hua]
      | some ua =>
          right
          refine ⟨env.relationship, ua.agent_id, ?_⟩
          unfold create_bot_agent_dropdown
          simp only [henv, hua]
          rcases hsg : storeRelGet s env.relationship ua.agent_id with ⟨lst, s1⟩
          simp only [hsg]
          cases hm : mapOpt
              (fun nid =>
                (alookup s1.agent_dict nid).map (fun ag => (ag.name, nid)))
              lst <;> simp [hm]

/-- Claim C4 (amended): the two candidate queries never change the
environment map, the agent map, the display list, or any counterpart list
of the store — the store is read-only up to the insertion of empty default
entries into the relationship `defaultdict` (which leaves every
`relLookup` result unchanged). -/
theorem queries_semantically_readonly (s : Store) (envId uId : String) :
    ((create_user_agent_dropdown s envId).2.environments = s.environments
      ∧ (create_user_agent_dropdown s envId).2.environment_dict
          = s.environment_dict
      ∧ (create_user_agent_dropdown s envId).2.agent_dict = s.agent_dict
      ∧ ∀ r a,
          relLookup (create_user_agent_dropdown s envId).2.relationship_dict r a
            = relLookup s.relationship_dict r a)
    ∧ ((create_bot_agent_dropdown s envId uId).2.environments = s.environments
      ∧ (create_bot_agent_dropdown s envId uId).2.environment_dict
          = s.environment_dict
      ∧ (create_bot_agent_dropdown s envId uId).2.agent_dict = s.agent_dict
      ∧ ∀ r a,
          relLookup (create_bot_agent_dropdown s envId uId).2.relationship_dict
              r a
            = relLookup s.relationship_dict r a) := by
  constructor
  · rcases create_user_snd s envId with h | ⟨r, h⟩
    · rw [h]
      exact ⟨rfl, rfl, rfl, fun _ _ => rfl⟩
    · rw [h]
      exact ⟨(storeRelOuter_env_fields s r).1, (storeRelOuter_env_fields s r).2.1,
        (storeRelOuter_env_fields s r).2.2,
        fun r' a => relLookup_storeRelOuter s r r' a⟩
  · rcases create_bot_snd s envId uId with h | ⟨r, a, h⟩
    · rw [h]
      exact ⟨rfl, rfl, rfl, fun _ _ => rfl⟩
    · rw [h]
      exact ⟨(storeRelGet_env_fields s r a).1, (storeRelGet_env_fields s r a).2.1,
        (storeRelGet_env_fields s r a).2.2,
        fun r' u => relLookup_storeRelGet s r a r' u⟩

/-- Claim C7: once a call of the memoized load with a given argument triple
has produced a store, a second call with the identical triple returns that
very cached snapshot — the underlying load body is not entered again (the
execution counter of the second call is 0) and the cache is unchanged. -/
theorem cachedCall_memo (compute : String × String × String → Except Err Store)
    (args : String × String × String) (st : CacheState) (v : Store)
    (h : (cachedCall compute args st).1 = Except.ok v) :
    (cachedCall compute args (cachedCall compute args st).2.1).1 = Except.ok v
    ∧ (cachedCall compute args (cachedCall compute args st).2.1).2.1
        = (cachedCall compute args st).2.1
    ∧ (cachedCall compute args (cachedCall compute args st).2.1).2.2 = 0 := by
  unfold cachedCall at h ⊢
  cases hl : alookup st args with
  | some w =>
      simp only [hl] at h ⊢
      simp at h
      subst h
      simp [hl]
  | none =>
      simp only [hl] at h ⊢
      cases hc : compute args with
      | ok w =>
          simp only [hc] at h ⊢
          simp at h
          subst h
          simp [alookup_aset]
      | error e =>
          simp only [hc] at h
          simp at h

theorem cached_load_memoized
    (pE : String → Option EnvRecord) (pA : String → Option AgentRecord)
    (pR : String → Option RelRecord) (rf : String → List String)
    (args : String × String × String) (st : CacheState) (v : Store)
    (h : (cached_get_sotopia_profiles pE pA pR rf args st).1 = Except.ok v) :
    (cached_get_sotopia_profiles pE pA pR rf args
        (cached_get_sotopia_profiles pE pA pR rf args st).2.1).1
      = Except.ok v
    ∧ (cached_get_sotopia_profiles pE pA pR rf args
        (cached_get_sotopia_profiles pE pA pR rf args st).2.1).2.1
      = (cached_get_sotopia_profiles pE pA pR rf args st).2.1
    ∧ (cached_get_sotopia_profiles pE pA pR rf args
        (cached_get_sotopia_profiles pE pA pR rf args st).2.1).2.2 = 0 := by
  unfold cached_get_sotopia_profiles at h ⊢
  exact cachedCall_memo _ args st v h

/-- Closed witness for C7: a successful load of three empty files from an
empty cache, followed by a second call with the same triple. -/
theorem cached_load_memoized_witness :
    (cached_get_sotopia_profiles (fun _ => none) (fun _ => none) (fun _ => none)
        (fun _ => []) ("env", "agent", "rel")
        (cached_get_sotopia_profiles (fun _ => none) (fun _ => none)
          (fun _ => none) (fun _ => []) ("env", "agent", "rel") []).2.1).1
      = Except.ok (⟨[], [], [], []⟩ : Store)
    ∧ (cached_get_sotopia_profiles (fun _ => none) (fun _ => none)
        (fun _ => none) (fun _ => []) ("env", "agent", "rel")
        (cached_get_sotopia_profiles (fun _ => none) (fun _ => none)
          (fun _ => none) (fun _ => []) ("env", "agent", "rel") []).2.1).2.2
      = 0 := by
  have h1 : (cached_get_sotopia_profiles (fun _ => none) (fun _ => none)
      (fun _ => none) (fun _ => []) ("env", "agent", "rel") []).1
      = Except.ok (⟨[], [], [], []⟩ : Store) := by rfl
  exact ⟨(cached_load_memoized _ _ _ _ _ _ _ h1).1,
    (cached_load_memoized _ _ _ _ _ _ _ h1).2.2⟩

/-- Claim C8: a single malformed (unparseable) line in any of the three
profile files makes the load fail with a `jsonError`; no line is skipped
and no partially-built store is returned. -/
theorem load_fails_on_bad_line
    (pE : String → Option EnvRecord) (pA : String → Option AgentRecord)
    (pR : String → Option RelRecord)
    (envLines agentLines relLines : List String)
    (h : (∃ l ∈ envLines, pE l = none) ∨ (∃ l ∈ agentLines, pA l = none)
      ∨ (∃ l ∈ relLines, pR l = none)) :
    get_sotopia_profiles pE pA pR envLines agentLines relLines
      = Except.error Err.jsonError := by
  unfold get_sotopia_profiles
  rcases h with ⟨l, hl, hfl⟩ | ⟨l, hl, hfl⟩ | ⟨l, hl, hfl⟩
  · rw [mapOpt_eq_none pE envLines l hl hfl]
    rfl
  · cases he : mapOpt pE envLines with
    | none => rfl
    | some data =>
        rw [mapOpt_eq_none pA agentLines l hl hfl]
        rfl
  · cases he : mapOpt pE envLines with
    | none => rfl
    | some data =>
        cases ha : mapOpt pA agentLines with
        | none => rfl
        | some agentData =>
            rw [mapOpt_eq_none pR relLines l hl hfl]
            rfl

/-- Closed witness for C8: one unparseable environment line. -/
theorem load_fails_on_bad_line_witness :
    (∃ l ∈ ["not json"], (fun (_ : String) => (none : Option EnvRecord)) l = none)
    ∧ get_sotopia_profiles (fun _ => none) (fun _ => none) (fun _ => none)
        ["not json"] [] []
      = Except.error Err.jsonError :=
  ⟨⟨"not json", List.mem_singleton.mpr rfl, rfl⟩,
    load_fails_on_bad_line (fun _ => none) (fun _ => none) (fun _ => none)
      ["not json"] [] []
      (Or.inl ⟨"not json", List.mem_singleton.mpr rfl, rfl⟩)⟩

/-- Claim C3: the loader's display list over the codename-sorted records
gives the first record of each codename the bare codename as label and each
subsequent one the zero-padded suffix `_00001`, `_00002`, …; the underlying
ids are passed through unchanged and the underlying codenames are sorted.
In particular two records codenamed `"negotiation"` yield the labels
`"negotiation"` and `"negotiation_00001"`. -/
theorem displayList_codename_disambiguation (data : List EnvRecord) :
    (envLoop [] [] [] (sortByCodename data)).1
        = specDisplayList [] (sortByCodename data)
    ∧ ((sortByCodename data).map EnvRecord.codename).Sorted (· ≤ ·)
    ∧ (specDisplayList [] (sortByCodename data)).map Prod.snd
        = (sortByCodename data).map EnvRecord.pk
    ∧ (envLoop [] [] [] (sortByCodename [negRecord1, negRecord2])).1
        = [("negotiation", "env-1"), ("negotiation_00001", "env-2")] := by
  constructor
  · have h := envLoop_spec (sortByCodename data) [] [] [] []
      (fun c => by simp [alookup, countOccs])
    simpa using h
  refine ⟨sortByCodename_sorted data, specDisplayList_snd _ [], ?_⟩
  rw [sortByCodename_negotiation]
  decide
